import Mathlib

/-!
Verification development for the Gamesbot repository (Discord daily-game score
bot).  The definitions below are a shallow embedding of the result-parsing,
scoring and latest-puzzle-tracking logic of the source files
`score_parser.py`, `database.py`, `role_manager.py` and `main_bot.py`.

Modelling conventions:
  - Python strings are modelled as `String` (inspected through `.data`,
    i.e. `List Char`); `str.split` and `str.strip` are re-implemented with
    Python semantics (`pySplit`, `pyStrip`).
  - The regular expressions of `score_parser.py` are each embedded as an
    explicit scanner over `List Char`; `re.search` is leftmost-match
    (`searchWith`), greedy pieces are maximal-munch (the character classes at
    every boundary of these patterns are disjoint, so this coincides with the
    backtracking semantics), and `re.IGNORECASE` is modelled by
    lowercase-folded comparison (`matchCI`).
  - Code that can raise a Python exception on some input is embedded in
    `Except PyErr`; code that cannot raise returns plain values.  Logging
    (`print` calls) and Discord message formatting are elided, as is the
    per-game configuration-dictionary dispatch of `game_config.py` (the
    tracker logic of `main_bot.handle_game_message` is uniform in the game).
  - sqlite persistence is modelled as pure record construction / list append;
    a failing `INSERT` is modelled by the `saveOk` flag of
    `handle_game_message_model`.
-/

namespace Gamesbot

/-- Python exception classes that the embedded code can raise. -/
inductive PyErr where
  | indexError : PyErr
  | valueError : PyErr
  | keyError : PyErr
  | nameError : PyErr
  | persistenceError : PyErr
deriving DecidableEq

/-- Python `\s` (ASCII range): space, tab, newline, carriage return,
vertical tab, form feed. -/
def pyIsSpace (c : Char) : Bool :=
  c = ' ' || c = '\t' || c = '\n' || c = '\r' || c = '\x0b' || c = '\x0c'

/-- Python `str.strip()`: drop whitespace from both ends. -/
def pyStrip (cs : List Char) : List Char :=
  ((cs.dropWhile pyIsSpace).reverse.dropWhile pyIsSpace).reverse

/-- Python `str.split(sep)` for a one-character separator: splits on every
occurrence and keeps empty pieces; splitting the empty string yields a
singleton list holding the empty piece. -/
def pySplit (sep : Char) : List Char → List (List Char)
  | [] => [[]]
  | c :: t =>
    if c = sep then [] :: pySplit sep t
    else
      match pySplit sep t with
      | [] => [[c]]
      | h :: r => (c :: h) :: r

/-- Python `int(s)` on a string of decimal digits. -/
def natOfDigits (cs : List Char) : Nat :=
  cs.foldl (fun n c => n * 10 + (c.toNat - 48)) 0

/-- Python `int(s)` on a one-character string: raises `ValueError` unless the
character is a decimal digit. -/
def pyIntOfChar (c : Char) : Except PyErr Nat :=
  if c.isDigit then .ok (c.toNat - 48) else .error .valueError

/-- Lowercase-fold a character sequence (Python `str.lower()`). -/
def toLowerList (cs : List Char) : List Char := cs.map Char.toLower

/-- Python `needle in hay` substring test. -/
def containsSub (needle : List Char) : List Char → Bool
  | [] => needle.isEmpty
  | c :: t => needle.isPrefixOf (c :: t) || containsSub needle t

/-- Consume a literal pattern case-insensitively (the pattern is given
lowercase); returns the rest of the input on success. -/
def matchCI : List Char → List Char → Option (List Char)
  | [], cs => some cs
  | _ :: _, [] => none
  | p :: pt, c :: ct => if c.toLower = p then matchCI pt ct else none

/-- Consume a literal pattern case-sensitively. -/
def matchLit : List Char → List Char → Option (List Char)
  | [], cs => some cs
  | _ :: _, [] => none
  | p :: pt, c :: ct => if c = p then matchLit pt ct else none

/-- Model of `re.search`: try the pattern at every position, leftmost match wins. -/
def searchWith {α : Type} (f : List Char → Option α) : List Char → Option α
  | [] => f []
  | c :: t =>
    match f (c :: t) with
    | some r => some r
    | none => searchWith f t

/-! ## Wordle: `WORDLE_PATTERN`, `SKILL_LUCK_PATTERN`, `parse_wordle_score`
(`score_parser.py` lines 5-6 and 14-56) and `save_wordle_score`
(`database.py` lines 98-122). -/

/-- The three capture groups of
`WORDLE_PATTERN = Wordle\s+(?:#?\s*)(\d+(?:,\d+)?)\s+([0-6X])/6(\*?)`
(compiled with `re.IGNORECASE`, so `[0-6X]` also accepts a lowercase x). -/
structure WordleGroups where
  num : List Char
  attempt : Char
  star : Bool
deriving DecidableEq

/-- Try `WORDLE_PATTERN` at the current position. -/
def tryWordleAt (cs : List Char) : Option WordleGroups :=
  match matchCI ("wordle".data) cs with
  | none => none
  | some r1 =>
    if r1.takeWhile pyIsSpace = [] then none
    else
      let r2 := r1.dropWhile pyIsSpace
      let r3 := match r2 with
        | '#' :: t => t.dropWhile pyIsSpace
        | _ => r2
      let d1 := r3.takeWhile Char.isDigit
      let r4 := r3.dropWhile Char.isDigit
      if d1 = [] then none
      else
        let gr : List Char × List Char := match r4 with
          | ',' :: t =>
            if t.takeWhile Char.isDigit = [] then (d1, r4)
            else (d1 ++ ',' :: t.takeWhile Char.isDigit, t.dropWhile Char.isDigit)
          | _ => (d1, r4)
        if (gr.2.takeWhile pyIsSpace) = [] then none
        else
          match gr.2.dropWhile pyIsSpace with
          | a :: '/' :: '6' :: r8 =>
            if ('0' ≤ a ∧ a ≤ '6') ∨ a = 'X' ∨ a = 'x' then
              some ⟨gr.1, a, match r8 with | '*' :: _ => true | _ => false⟩
            else none
          | _ => none

/-- Search with `WORDLE_PATTERN`. -/
def wordleSearch (cs : List Char) : Option WordleGroups := searchWith tryWordleAt cs

/-- Try `SKILL_LUCK_PATTERN = Skill\s+(\d+)/99\s+Luck\s+(\d+)/99`
(IGNORECASE) at the current position; returns the two digit groups. -/
def trySkillLuckAt (cs : List Char) : Option (List Char × List Char) :=
  match matchCI ("skill".data) cs with
  | none => none
  | some r1 =>
    if r1.takeWhile pyIsSpace = [] then none
    else
      let r2 := r1.dropWhile pyIsSpace
      let d1 := r2.takeWhile Char.isDigit
      if d1 = [] then none
      else
        match r2.dropWhile Char.isDigit with
        | '/' :: '9' :: '9' :: r3 =>
          if r3.takeWhile pyIsSpace = [] then none
          else
            match matchCI ("luck".data) (r3.dropWhile pyIsSpace) with
            | none => none
            | some r4 =>
              if r4.takeWhile pyIsSpace = [] then none
              else
                let r5 := r4.dropWhile pyIsSpace
                let d2 := r5.takeWhile Char.isDigit
                if d2 = [] then none
                else
                  match r5.dropWhile Char.isDigit with
                  | '/' :: '9' :: '9' :: _ => some (d1, d2)
                  | _ => none
        | _ => none

/-- Search with `SKILL_LUCK_PATTERN`. -/
def skillLuckSearch (cs : List Char) : Option (List Char × List Char) :=
  searchWith trySkillLuckAt cs

/-- A line consisting only of Wordle grid characters
(`score_parser.py` line 44: the line is nonempty and every character is one
of the three square symbols green, yellow, white). -/
def is_wordle_grid_line (l : List Char) : Bool :=
  !l.isEmpty && l.all (fun c => c = '🟩' || c = '🟨' || c = '⬜')

/-- The dictionary returned by `parse_wordle_score`.  The grid is kept as its
list of lines (the source joins them with a newline). -/
structure WordleResult where
  game_number : Nat
  attempts : Nat
  solved : Bool
  hard_mode : Bool
  skill : Option Nat
  luck : Option Nat
  grid : List (List Char)
deriving DecidableEq

/-- Embedding of `parse_wordle_score` (`score_parser.py` lines 14-56).  Raises
`ValueError` when the attempts group is a lowercase x (accepted by the
IGNORECASE character class but not equal to the literal X, so it reaches
`int(attempts_str)`). -/
def parse_wordle_score (message_content : String) : Except PyErr (Option WordleResult) :=
  let cs := message_content.data
  match wordleSearch cs with
  | none => .ok none
  | some g =>
    let game_number := natOfDigits (g.num.filter (fun c => c ≠ ','))
    match (if g.attempt = 'X' then Except.ok 7 else pyIntOfChar g.attempt :
           Except PyErr Nat) with
    | .error e => .error e
    | .ok attempts =>
      let sl : Option Nat × Option Nat := match skillLuckSearch cs with
        | some (a, b) => (some (natOfDigits a), some (natOfDigits b))
        | none => (none, none)
      let grid := (pySplit '\n' cs).filter is_wordle_grid_line
      .ok (some
        { game_number := game_number
          attempts := attempts
          solved := decide (attempts ≤ 6)
          hard_mode := g.star
          skill := sl.1
          luck := sl.2
          grid := grid })

/-- Embedding of `is_wordle_message` (`score_parser.py` lines 251-253). -/
def is_wordle_message (message_content : String) : Bool :=
  containsSub ("wordle".data) (toLowerList message_content.data) &&
    (wordleSearch message_content.data).isSome

/-- The attempts-tier chain of `save_wordle_score`
(`database.py` lines 100-111). -/
def attempt_score (attempts : Nat) : Int :=
  if attempts = 1 then 100
  else if attempts = 2 then 80
  else if attempts = 3 then 60
  else if attempts = 4 then 40
  else if attempts = 5 then 20
  else 0

/-- Python `x or 0` for an optional integer: `None` and `0` are falsy and
give `0`, any other value gives itself. -/
def pyOrZero (o : Option Nat) : Nat :=
  match o with
  | none => 0
  | some v => if v = 0 then 0 else v

/-- The row inserted by `save_wordle_score` (`database.py` lines 98-122);
the `display_name` and timestamp columns are elided. -/
structure WordleRow where
  user_id : Nat
  game_number : Nat
  attempts : Nat
  skill : Option Nat
  luck : Option Nat
  hard_mode : Bool
  total_score : Int
deriving DecidableEq

/-- Embedding of `save_wordle_score`: computes
`total_score = (skill or 0) + attempt_score - (luck or 0)` and inserts the
row. -/
def save_wordle_score (user_id game_number attempts : Nat)
    (skill luck : Option Nat) (hard_mode : Bool) : WordleRow :=
  { user_id := user_id
    game_number := game_number
    attempts := attempts
    skill := skill
    luck := luck
    hard_mode := hard_mode
    total_score := (pyOrZero skill : Int) + attempt_score attempts - (pyOrZero luck : Int) }

/-! ## Connections: `parse_connections_result` (`score_parser.py` lines
58-99) and `calculate_connections_score` (lines 101-154). -/

/-- The `base_points` dictionary lookup (purple 4, blue 3, green 2,
yellow 1):
`some` on the four category symbols, `none` otherwise (membership test
`guess in base_points` is `Option.isSome`). -/
def base_points_find (g : Char) : Option Int :=
  if g = '🟪' then some 4
  else if g = '🟦' then some 3
  else if g = '🟩' then some 2
  else if g = '🟨' then some 1
  else none

/-- One iteration of the first loop of `calculate_connections_score`
(lines 120-126): accumulates the first correct symbol, the number of correct
guesses and the mistake count. -/
def conn_loop1_step (st : Option Char × Nat × Nat) (g : Char) : Option Char × Nat × Nat :=
  match st with
  | (f, c, m) =>
    if (base_points_find g).isSome then
      (if f.isNone then some g else f, c + 1, m)
    else if g = 'X' then (f, c, m + 1)
    else (f, c, m)

/-- The first loop of `calculate_connections_score` (the `first_group`
variable is modelled as `Option Char`; the source uses the empty string as
the not-yet-seen sentinel). -/
def connLoop1 (guesses : List Char) : Option Char × Nat × Nat :=
  guesses.foldl conn_loop1_step (none, 0, 0)

/-- One iteration of the second loop (lines 135-137): add the base points of
every correct guess to the running total. -/
def conn_points_step (t : Int) (g : Char) : Int :=
  match base_points_find g with
  | some p => t + p
  | none => t

/-- The dictionary returned by `calculate_connections_score`. -/
structure ConnScore where
  total_score : Int
  num_guesses : Nat
  solved_purple_first : Bool
  solved_blue_first : Bool
  finished_game : Bool
  correct_guesses : Nat
  mistake_count : Nat
deriving DecidableEq

/-- Embedding of `calculate_connections_score` (`score_parser.py` lines 101-154). -/
def calculate_connections_score (guesses : List Char) : ConnScore :=
  let acc := connLoop1 guesses
  let first_group := acc.1
  let correct_guesses := acc.2.1
  let mistake_count := acc.2.2
  let bonus : Int :=
    if first_group = some '🟪' then 2
    else if first_group = some '🟦' then 1
    else 0
  let total1 : Int := guesses.foldl conn_points_step ((0 : Int) + bonus)
  let total2 : Int :=
    if correct_guesses = 4 ∧ mistake_count = 0 then total1 + 5
    else total1 - (mistake_count : Int)
  { total_score := total2
    num_guesses := guesses.length
    solved_purple_first := decide (first_group = some '🟪')
    solved_blue_first := decide (first_group = some '🟦')
    finished_game := decide (correct_guesses = 4)
    correct_guesses := correct_guesses
    mistake_count := mistake_count }

/-- The per-line guess extraction of `parse_connections_result`
(lines 81-90): a stripped line of exactly 4 identical characters yields that
character, any other nonempty stripped line yields the mistake marker X, an
empty stripped line yields nothing. -/
def conn_line_guess (line : List Char) : Option Char :=
  let s := pyStrip line
  if s.length = 4 then
    match s with
    | c :: rest => if rest.all (fun d => d = c) then some c else some 'X'
    | [] => some 'X'
  else if s.length > 0 then some 'X'
  else none

/-- The guesses collected from `lines[2:]`. -/
def connGuesses (ls : List (List Char)) : List Char := ls.filterMap conn_line_guess

/-- Search for the literal text `Puzzle #` followed by at least one digit
(case-sensitive, the inner regex of `parse_connections_result`) at one
position. -/
def tryPuzzleAt (cs : List Char) : Option (List Char) :=
  match matchLit ("Puzzle #".data) cs with
  | none => none
  | some r =>
    if r.takeWhile Char.isDigit = [] then none else some (r.takeWhile Char.isDigit)

/-- The dictionary returned by `parse_connections_result` (the score fields,
spread into the dictionary by the source, are kept as a nested record). -/
structure ConnResult where
  puzzle_number : Nat
  guesses : List Char
  score : ConnScore
deriving DecidableEq

/-- Embedding of `parse_connections_result` (`score_parser.py` lines 58-99).  The header
check, first line strips to the anchor word Connections and the second line
contains the text Puzzle followed by a hash,
evaluates `lines[1]` only when the first conjunct is true (Python
short-circuit), and raises `IndexError` when the message has a single line
whose stripped text is exactly `Connections`. -/
def parse_connections_result (message_content : String) : Except PyErr (Option ConnResult) :=
  match pySplit '\n' message_content.data with
  | [] => .ok none
  | l0 :: rest =>
    if pyStrip l0 ≠ "Connections".data then .ok none
    else
      match rest with
      | [] => .error .indexError
      | l1 :: restLines =>
        if ¬ (containsSub ("Puzzle #".data) l1 = true) then .ok none
        else
          match searchWith tryPuzzleAt l1 with
          | none => .ok none
          | some d =>
            let guesses := connGuesses restLines
            .ok (some
              { puzzle_number := natOfDigits d
                guesses := guesses
                score := calculate_connections_score guesses })

/-! ## Gisnep: `GISNEP_PATTERN`, `GISNEP_NUMBER_PATTERN` (`score_parser.py`
lines 9-10) and `parse_gisnep_score` (lines 184-206). -/

/-- The group of `GISNEP_PATTERN = #Gisnep.*in (\d{1,2}:\d{2})` at one
position after the text `in `: one or two minute digits (greedy), a colon and
exactly two second digits; returned as (minute digits, second digits). -/
def parseTimeGroup : List Char → Option (List Char × List Char)
  | c1 :: c2 :: c3 :: c4 :: c5 :: _ =>
    if c1.isDigit && c2.isDigit && c3 == ':' && c4.isDigit && c5.isDigit then
      some ([c1, c2], [c4, c5])
    else if c1.isDigit && c2 == ':' && c3.isDigit && c4.isDigit then
      some ([c1], [c3, c4])
    else none
  | [c1, c2, c3, c4] =>
    if c1.isDigit && c2 == ':' && c3.isDigit && c4.isDigit then
      some ([c1], [c3, c4])
    else none
  | _ => none

/-- The tail regex .*in (\d{1,2}:\d{2}) within one line: the greedy `.*` backtracks from
the right, so the rightmost occurrence of `in ` followed by a time group
wins (`in` is matched case-insensitively under `re.IGNORECASE`). -/
def findInTimeFrom : List Char → Option (List Char × List Char)
  | [] => none
  | c :: t =>
    match findInTimeFrom t with
    | some r => some r
    | none =>
      match matchCI ("in ".data) (c :: t) with
      | some after => parseTimeGroup after
      | none => none

/-- Try `GISNEP_PATTERN` at one position: `#Gisnep` (case-insensitive) followed,
on the same line (`.` does not match a newline), by `in ` and a time group. -/
def tryGisnepAt (cs : List Char) : Option (List Char × List Char) :=
  match matchCI ("#gisnep".data) cs with
  | none => none
  | some rest => findInTimeFrom (rest.takeWhile (fun c => c ≠ '\n'))

/-- Search with `GISNEP_PATTERN`. -/
def gisnepTimeSearch (cs : List Char) : Option (List Char × List Char) :=
  searchWith tryGisnepAt cs

/-- Try `GISNEP_NUMBER_PATTERN`, the regex No\. (\d+) under IGNORECASE, at
one position. -/
def tryGisnepNoAt (cs : List Char) : Option (List Char) :=
  match matchCI ("no. ".data) cs with
  | none => none
  | some r =>
    if r.takeWhile Char.isDigit = [] then none else some (r.takeWhile Char.isDigit)

/-- The dictionary returned by `parse_gisnep_score`. -/
structure GisnepResult where
  game_number : Nat
  completion_time : Nat
deriving DecidableEq

/-- Embedding of `parse_gisnep_score` (`score_parser.py` lines 184-206).  The matched
time group is re-assembled into the string the source receives from
`time_match.group(1)` and split on the colon exactly as
`time_str.split(":")`; the source converts each part with `int` and uses
`minutes * 60 + seconds` when there are two parts, else the single part. -/
def parse_gisnep_score (message_content : String) : Option GisnepResult :=
  let cs := message_content.data
  match gisnepTimeSearch cs, searchWith tryGisnepNoAt cs with
  | some (md, sd), some gd =>
    let time_str := md ++ ':' :: sd
    let parts := (pySplit ':' time_str).map natOfDigits
    let total_seconds :=
      match parts with
      | [m, s] => m * 60 + s
      | p :: _ => p
      | [] => 0
    some ⟨natOfDigits gd, total_seconds⟩
  | _, _ => none

/-! ## Bandle: `BANDLE_PATTERN`, `BONUS_PATTERN` (`score_parser.py` lines
11-12) and `parse_bandle_score` (lines 208-237). -/

/-- The groups of `BANDLE_PATTERN = Bandle\s+#?(\d+)\s+(\d|X)/(\d)`
(IGNORECASE, so `X` also matches a lowercase x). -/
structure BandleGroups where
  num : List Char
  attempt : Char
  maxd : Char
deriving DecidableEq

/-- Try `BANDLE_PATTERN` at one position. -/
def tryBandleAt (cs : List Char) : Option BandleGroups :=
  match matchCI ("bandle".data) cs with
  | none => none
  | some r1 =>
    if r1.takeWhile pyIsSpace = [] then none
    else
      let r2 := r1.dropWhile pyIsSpace
      let r3 := match r2 with
        | '#' :: t => t
        | _ => r2
      let d := r3.takeWhile Char.isDigit
      if d = [] then none
      else
        let r4 := r3.dropWhile Char.isDigit
        if r4.takeWhile pyIsSpace = [] then none
        else
          match r4.dropWhile pyIsSpace with
          | a :: '/' :: m :: _ =>
            if (a.isDigit || a == 'X' || a == 'x') && m.isDigit then
              some ⟨d, a, m⟩
            else none
          | _ => none

/-- Search with `BANDLE_PATTERN`. -/
def bandleSearch (cs : List Char) : Option BandleGroups := searchWith tryBandleAt cs

/-- Try `BONUS_PATTERN`, the regex Bonus Rounds: (\d+)/(\d+) under
IGNORECASE, at one
position. -/
def tryBonusAt (cs : List Char) : Option (List Char × List Char) :=
  match matchCI ("bonus rounds: ".data) cs with
  | none => none
  | some r =>
    let d1 := r.takeWhile Char.isDigit
    if d1 = [] then none
    else
      match r.dropWhile Char.isDigit with
      | '/' :: r2 =>
        let d2 := r2.takeWhile Char.isDigit
        if d2 = [] then none else some (d1, d2)
      | _ => none

/-- The dictionary returned by `parse_bandle_score`. -/
structure BandleResult where
  game_number : Nat
  attempts : Nat
  solved : Bool
  total_score : Int
  bonus_completed : Nat
  bonus_total : Nat
deriving DecidableEq

/-- Embedding of `parse_bandle_score` (`score_parser.py` lines 208-237):
the solved flag is the attempts group differing from the uppercase failure
letter (case-sensitive, so a matched lowercase x is
treated as solved and `int("x")` raises `ValueError`); a failed game maps
attempts to `max_attempts + 1`; `score = max(6 - attempts, 0) if solved
else 0`; bonus groups default to 0 when absent. -/
def parse_bandle_score (message_content : String) : Except PyErr (Option BandleResult) :=
  let cs := message_content.data
  match bandleSearch cs with
  | none => .ok none
  | some g =>
    let game_number := natOfDigits g.num
    let max_attempts := g.maxd.toNat - 48
    let solved : Bool := g.attempt != 'X'
    match (if solved then pyIntOfChar g.attempt else .ok (max_attempts + 1) :
           Except PyErr Nat) with
    | .error e => .error e
    | .ok attempts =>
      let score : Int := if solved then max (6 - (attempts : Int)) 0 else 0
      let bonus : Nat × Nat := match searchWith tryBonusAt cs with
        | some (b1, b2) => (natOfDigits b1, natOfDigits b2)
        | none => (0, 0)
      .ok (some
        { game_number := game_number
          attempts := attempts
          solved := solved
          total_score := score
          bonus_completed := bonus.1
          bonus_total := bonus.2 })

/-! ## Role manager (`role_manager.py`) and the latest-puzzle tracker of
`main_bot.handle_game_message` (`main_bot.py` lines 66-151).

A guild is modelled by whether the per-game player role exists and by the
list of member ids currently holding it.  The persistence layer is a list of
`(user, puzzleIndex)` records plus the stored latest game number; a failing
`INSERT` is the `saveOk` flag.  Debug `print` calls, chat replies and the
configuration-dictionary indirection of `game_config.py` are elided. -/

/-- The state relevant to one game player role inside a guild. -/
structure Guild where
  roleExists : Bool
  holders : List Nat
deriving DecidableEq

/-- Embedding of `get_members_with_role` (`role_manager.py` lines 4-6). -/
def get_members_with_role (g : Guild) : List Nat :=
  if g.roleExists then g.holders else []

/-- Embedding of `remove_role` (`role_manager.py` lines 8-13). -/
def remove_role (g : Guild) (m : Nat) : Guild × Bool :=
  if g.roleExists then
    if m ∈ g.holders then ({ g with holders := g.holders.erase m }, true)
    else (g, false)
  else (g, false)

/-- Embedding of `assign_role` (`role_manager.py` lines 15-20). -/
def assign_role (g : Guild) (m : Nat) : Guild × Bool :=
  if g.roleExists then ({ g with holders := g.holders.insert m }, true)
  else (g, false)

/-- Embedding of `handle_game_role_assignment` (`role_manager.py` lines 22-42):
`current_game_number > latest_game_number` resets the role (revoke from every
current holder, then grant to the submitter); equality grants without
revoking; an older game does nothing. -/
def handle_game_role_assignment (g : Guild) (member current_game_number latest_game_number : Nat) :
    Guild × Bool :=
  if current_game_number > latest_game_number then
    let ms := get_members_with_role g
    let g1 := ms.foldl (fun h m => (remove_role h m).1) g
    assign_role g1 member
  else if current_game_number = latest_game_number then
    assign_role g member
  else (g, false)

/-- The cross-message state touched by `handle_game_message` for one game:
the stored latest game number (`latest_game_numbers` table), the guild role
state and the persisted result rows. -/
structure EngineState where
  latest : Nat
  guild : Guild
  records : List (Nat × Nat)
deriving DecidableEq

/-- The guard-write-role core of the persistence-and-tracker part of
`handle_game_message` (`main_bot.py` lines 87-151), uniform in the game:
save the parsed result (a failing insert raises and nothing later runs),
read the stored latest game number, and when
`current_game_number >= latest_game_number` write the new number and run
the role assignment with the previously read value.  Returns the raised
exception, if any, together with the state as mutated up to that point.
This core omits two aborting slips of the source, which
`handle_game_message_src` below restores: the missing-key lookup at line
120 and the undefined-name debug print at lines 131-134. -/
def handle_game_message_model (saveOk : Bool) (st : EngineState) (member n : Nat) :
    Option PyErr × EngineState :=
  if saveOk then
    let st1 := { st with records := st.records ++ [(member, n)] }
    let latest_game_number := st1.latest
    if n ≥ latest_game_number then
      let st2 := { st1 with latest := n }
      let ra := handle_game_role_assignment st1.guild member n latest_game_number
      (none, { st2 with guild := ra.1 })
    else (none, st1)
  else (some PyErr.persistenceError, st)

/-- One ingestion event as seen by the tracker: save success flag, user and
puzzle index. -/
def ingest_step (st : EngineState) (ev : Bool × Nat × Nat) : EngineState :=
  (handle_game_message_model ev.1 st ev.2.1 ev.2.2).2

/-- The keys defined by every entry of the `GAME_CONFIGS` dictionary
(`game_config.py`); all five game entries define exactly these. -/
def game_config_keys : List String :=
  ["name", "chat_channel_name", "player_role_name", "parse_function",
   "is_game_message", "save_score_function", "get_leaderboard_function",
   "get_latest_game_number_function", "update_latest_game_number_function",
   "create_acknowledgement", "create_introduction"]

/-- Whether a `GAME_CONFIGS` entry defines the key `game_number_key` that
`main_bot.py` line 120 reads; none does, so the lookup raises `KeyError`. -/
def config_has_game_number_key : Bool :=
  game_config_keys.contains ("game_number_key")

/-- The persistence-and-tracker part of `handle_game_message`
(`main_bot.py` lines 87-151) as the source actually executes, including its
two aborting slips.  After a successful save, line 120 evaluates
`game_config` at the key `game_number_key`; when the entry does not define
that key (`hasKey = false`, the case of every shipped entry) Python raises
`KeyError` and nothing later runs.  Otherwise the stored latest number is
read and, inside the `current >= latest` branch, the debug print at lines
131-134 interpolates the name `game_number`, which is bound nowhere in the
function or module: `NameError` is raised after the line-130 index update
but before the `handle_game_role_assignment` call at line 137, so the role
assignment is never reached on any path. -/
def handle_game_message_src (hasKey saveOk : Bool) (st : EngineState) (member n : Nat) :
    Option PyErr × EngineState :=
  if saveOk then
    let st1 := { st with records := st.records ++ [(member, n)] }
    if hasKey = false then (some PyErr.keyError, st1)
    else
      let latest_game_number := st1.latest
      if n ≥ latest_game_number then
        let st2 := { st1 with latest := n }
        (some PyErr.nameError, st2)
      else (none, st1)
  else (some PyErr.persistenceError, st)

/-! ## Spec-side definitions.

These follow the wording of the specification and of the claims (not the
source); they exist so that the refinement theorems can compare the embedded
code against the spec formulas. -/

/-- The spec attempts tier table: `{1:100, 2:80, 3:60, 4:40, 5:20,
default:0}`. -/
def specTier (a : Nat) : Int :=
  if a = 1 then 100
  else if a = 2 then 80
  else if a = 3 then 60
  else if a = 4 then 40
  else if a = 5 then 20
  else 0

/-- The first correct (category) symbol of a Connections guess sequence. -/
def connFirstCorrect (gs : List Char) : Option Char :=
  gs.find? (fun g => (base_points_find g).isSome)

/-- The spec order bonus: +2 when the first correct symbol is the 4-point
category purple, +1 when it is the 3-point category blue, else 0. -/
def connBonusOrderSpec (gs : List Char) : Int :=
  if connFirstCorrect gs = some '🟪' then 2
  else if connFirstCorrect gs = some '🟦' then 1
  else 0

/-- The spec category sum: base points of every correct guess. -/
def categorySumSpec (gs : List Char) : Int :=
  (gs.filterMap base_points_find).sum

/-- Number of correct guesses in a Connections guess sequence. -/
def correctCountSpec (gs : List Char) : Nat :=
  gs.countP (fun g => (base_points_find g).isSome)

/-- Number of miss markers in a Connections guess sequence (the source
counts a guess as a miss only in the `elif` branch, i.e. when it is not a
category symbol; `X` never is one, so the guard is kept for fidelity). -/
def missCountSpec (gs : List Char) : Nat :=
  gs.countP (fun g => !(base_points_find g).isSome && g == 'X')

/-- The claim reading of completion: all four category symbols actually
appear among the guesses. -/
def allFourFound (gs : List Char) : Bool :=
  ['🟪', '🟦', '🟩', '🟨'].all (fun c => gs.contains c)

/-- The claim total formula, with the completion adjustment gated on all
four categories being found (the claim wording), not on the number of
correct guesses (the code condition). -/
def specConnTotal (gs : List Char) : Int :=
  connBonusOrderSpec gs + categorySumSpec gs +
    (if allFourFound gs ∧ missCountSpec gs = 0 then 5 else -(missCountSpec gs : Int))

/-- The claim reading of grid extraction: the first contiguous run of
lines made solely of grid symbols. -/
def firstGridRunSpec (ls : List (List Char)) : List (List Char) :=
  (ls.dropWhile (fun l => !is_wordle_grid_line l)).takeWhile is_wordle_grid_line

/-! ## Concrete messages used by the counterexamples and witnesses. -/

def msgWordleZero : String := "Wordle 100 0/6"

def msgWordleThree : String := "Wordle 100 3/6"

def msgWordleXPlain : String := "Wordle 100 X/6"

def msgWordleX : String := "Wordle 100 X/6\nSkill 40/99 Luck 10/99"

def msgWordleSplitGrid : String := "Wordle 1 2/6\n🟩🟩🟩🟩🟩\nnice\n🟨🟨🟨🟨🟨"

def wordleGridA : String := "🟩🟩🟩🟩🟩"

def wordleGridB : String := "🟨🟨🟨🟨🟨"

def msgBandleX : String := "Bandle #123 X/6"

def msgConnOneLine : String := "Connections"

def msgHello : String := "hello"

def msgConnTwoLine : String := "Connections\nPuzzle #9\n🟪🟪🟪🟪"

def msgConnBase : String := "Connections\nPuzzle #1\n🟪🟪🟪🟪\n🟦🟦🟦🟦\n🟩🟩🟩🟩\n🟨🟨🟨🟨"

def msgConnComment : String :=
  "Connections\nPuzzle #1\n🟪🟪🟪🟪\n🟦🟦🟦🟦\n🟩🟩🟩🟩\n🟨🟨🟨🟨\nGreat puzzle!"

def connCommentLine : String := "Great puzzle!"

def msgGisnepBare : String := "#Gisnep No. 12 in 45"

def msgGisnepMMSS : String := "#Gisnep No. 12 in 0:45"

def msgGisnepW : String := "#Gisnep No. 3 in 1:23"

/-! ## Lemmas about the Connections score loops. -/

theorem conn_loop1_go (gs : List Char) : ∀ (f : Option Char) (c m : Nat),
    gs.foldl conn_loop1_step (f, c, m) =
      ((match f with | some x => some x | none => connFirstCorrect gs),
        c + correctCountSpec gs, m + missCountSpec gs) := by
  induction gs with
  | nil =>
    intro f c m
    simp only [List.foldl_nil, connFirstCorrect, correctCountSpec, missCountSpec,
      List.find?_nil, List.countP_nil]
    cases f <;> simp
  | cons g t ih =>
    intro f c m
    simp only [List.foldl_cons, conn_loop1_step]
    by_cases hb : (base_points_find g).isSome = true
    · obtain ⟨p, hp⟩ := Option.isSome_iff_exists.mp hb
      simp only [hb, ite_true]
      rw [ih]
      refine Prod.ext ?_ (Prod.ext ?_ ?_)
      · cases f with
        | none => simp [connFirstCorrect, List.find?_cons, hp]
        | some x => rfl
      · simp [correctCountSpec, List.countP_cons, hp]; omega
      · simp [missCountSpec, List.countP_cons, hp]
    · have hbn : base_points_find g = none := Option.not_isSome_iff_eq_none.mp hb
      simp only [hb, ite_false]
      by_cases hx : g = 'X'
      · subst hx
        simp only [ite_true]
        rw [ih]
        refine Prod.ext ?_ (Prod.ext ?_ ?_)
        · cases f <;> simp [connFirstCorrect, List.find?_cons, hbn]
        · simp [correctCountSpec, List.countP_cons, hbn]
        · simp [missCountSpec, List.countP_cons, hbn]; omega
      · simp only [hx, ite_false]
        rw [ih]
        refine Prod.ext ?_ (Prod.ext ?_ ?_)
        · cases f <;> simp [connFirstCorrect, List.find?_cons, hbn]
        · simp [correctCountSpec, List.countP_cons, hbn]
        · simp [missCountSpec, List.countP_cons, hbn, hx]

theorem conn_points_go (gs : List Char) : ∀ t0 : Int,
    gs.foldl conn_points_step t0 = t0 + categorySumSpec gs := by
  induction gs with
  | nil => intro t0; simp [categorySumSpec]
  | cons g t ih =>
    intro t0
    simp only [List.foldl_cons, conn_points_step]
    cases hb : base_points_find g with
    | none => rw [ih]; simp [categorySumSpec, List.filterMap_cons, hb]
    | some p =>
      rw [ih]
      simp only [categorySumSpec, List.filterMap_cons, hb, List.sum_cons]
      ring

/-! ## Claim theorems C3 and C4. -/

/-- Claim C3 (confirmed): the persisted Wordle total score equals
`tierTable[attempts] + skill - luck` with the spec tier table
(1 to 100, 2 to 80, 3 to 60, 4 to 40, 5 to 20, every other value including 6
and the failure sentinel to 0) and skill/luck defaulting to 0 when absent;
in particular attempts 3 with skill 40 and luck 10 persists 90. -/
theorem C3_wordle_total_formula :
    (∀ (u g a : Nat) (s l : Option Nat) (hm : Bool),
        (save_wordle_score u g a s l hm).total_score =
          specTier a + (pyOrZero s : Int) - (pyOrZero l : Int)) ∧
    (∀ o : Option Nat, pyOrZero o = o.getD 0) ∧
    (∀ a : Nat, attempt_score a = specTier a) ∧
    specTier 6 = 0 ∧ specTier 7 = 0 ∧ specTier 0 = 0 ∧
    (save_wordle_score 0 0 3 (some 40) (some 10) false).total_score = 90 := by
  refine ⟨?_, ?_, fun a => rfl, rfl, rfl, rfl, rfl⟩
  · intro u g a s l hm
    simp only [save_wordle_score]
    have h : attempt_score a = specTier a := rfl
    rw [h]; ring
  · intro o
    cases o with
    | none => rfl
    | some v => by_cases h : v = 0 <;> simp [pyOrZero, h]

/-- Claim C4, counterexample: on the guess sequence of four yellow symbols
the code marks the game finished and grants the +5 completion bonus
(total 9) although not all four categories were found; the claim formula
(completion gated on all four categories) gives 4. -/
theorem C4_counterexample :
    (calculate_connections_score ['🟨', '🟨', '🟨', '🟨']).finished_game = true ∧
    allFourFound ['🟨', '🟨', '🟨', '🟨'] = false ∧
    (calculate_connections_score ['🟨', '🟨', '🟨', '🟨']).total_score = 9 ∧
    specConnTotal ['🟨', '🟨', '🟨', '🟨'] = 4 ∧ (9 : Int) ≠ 4 := by
  exact ⟨rfl, rfl, rfl, rfl, by decide⟩

/-- Claim C4 as amended (the completion adjustment and the finished flag are
gated on the number of correct guesses being four, not on all four distinct
categories having been found): for every guess sequence the total equals
`bonusOrder + categorySum + completionAdjustment` with `bonusOrder` +2/+1/0
by the first correct symbol, `categorySum` the sum of base points 4/3/2/1
over correct guesses, and `completionAdjustment` +5 when there are exactly
four correct guesses and no misses, else minus the miss count; `finished`
is true iff there are exactly four correct guesses.  The claim own example
still holds: the all-four-distinct no-miss sequence scores 17 and is
finished. -/
theorem C4_connections_formula :
    (∀ guesses : List Char,
      (calculate_connections_score guesses).total_score =
        connBonusOrderSpec guesses + categorySumSpec guesses +
          (if correctCountSpec guesses = 4 ∧ missCountSpec guesses = 0 then (5 : Int)
           else -(missCountSpec guesses : Int)) ∧
      (calculate_connections_score guesses).finished_game =
        decide (correctCountSpec guesses = 4)) ∧
    (calculate_connections_score ['🟪', '🟩', '🟨', '🟦']).total_score = 17 ∧
    (calculate_connections_score ['🟪', '🟩', '🟨', '🟦']).finished_game = true := by
  refine ⟨?_, rfl, rfl⟩
  intro guesses
  have h1 : guesses.foldl conn_loop1_step (none, 0, 0) =
      (connFirstCorrect guesses, correctCountSpec guesses, missCountSpec guesses) := by
    simpa using conn_loop1_go guesses none 0 0
  have h2 := conn_points_go guesses
  constructor
  · simp only [calculate_connections_score, connLoop1, h1, h2]
    simp only [connBonusOrderSpec]
    split_ifs with hc <;> ring
  · simp only [calculate_connections_score, connLoop1, h1]

/-! ## Lemmas about the role reset loop; claim theorems C1, C2, C9. -/

theorem fold_remove_role_roleExists : ∀ (l : List Nat) (g : Guild),
    (l.foldl (fun h m => (remove_role h m).1) g).roleExists = g.roleExists := by
  intro l
  induction l with
  | nil => intro g; rfl
  | cons a t ih =>
    intro g
    simp only [List.foldl_cons]
    rw [ih]
    simp only [remove_role]
    split_ifs <;> rfl

theorem fold_remove_role_holders : ∀ (l : List Nat) (g : Guild),
    g.roleExists = true → g.holders = l →
    (l.foldl (fun h m => (remove_role h m).1) g).holders = [] := by
  intro l
  induction l with
  | nil => intro g _ hh; simpa using hh
  | cons a t ih =>
    intro g hr hh
    simp only [List.foldl_cons]
    have hstep : (remove_role g a).1 = { g with holders := t } := by
      simp [remove_role, hr, hh, List.erase_cons_head]
    rw [hstep]
    exact ih _ (by simpa using hr) rfl

/-- Claim C1 (code bug): the claimed three-way outcome is exactly what
`role_manager.handle_game_role_assignment` implements (shown on concrete
states below), but `handle_game_message` never reaches it: under the
shipped configuration (`config_has_game_number_key = false`) every handled
message raises `KeyError` at line 120 right after the save, and even with
that key present the undefined-name debug print raises `NameError` after
the index update but before the role-assignment call, so on every path of
the source the guild role state is unchanged. -/
theorem C1_role_side_effects_unreachable :
    config_has_game_number_key = false ∧
    (∀ (st : EngineState) (member n : Nat),
      handle_game_message_src config_has_game_number_key true st member n =
        (some PyErr.keyError, { st with records := st.records ++ [(member, n)] })) ∧
    (∀ (st : EngineState) (member n : Nat),
      (handle_game_message_src true true st member n).1 =
        (if n ≥ st.latest then some PyErr.nameError else none)) ∧
    (∀ (hasKey saveOk : Bool) (st : EngineState) (member n : Nat),
      (handle_game_message_src hasKey saveOk st member n).2.guild = st.guild) ∧
    parse_wordle_score msgWordleThree = .ok (some ⟨100, 3, true, false, none, none, []⟩) ∧
    (handle_game_message_src config_has_game_number_key true ⟨0, ⟨true, [7]⟩, []⟩ 9 100).1 =
      some PyErr.keyError ∧
    handle_game_role_assignment ⟨true, [7, 8]⟩ 9 5 3 = (⟨true, [9]⟩, true) ∧
    handle_game_role_assignment ⟨true, [7, 8]⟩ 9 5 5 = (⟨true, [9, 7, 8]⟩, true) ∧
    handle_game_role_assignment ⟨true, [7, 8]⟩ 9 4 5 = (⟨true, [7, 8]⟩, false) := by
  refine ⟨rfl, ?_, ?_, ?_, rfl, rfl, rfl, rfl, rfl⟩
  · intro st member n
    rfl
  · intro st member n
    by_cases h : n ≥ st.latest <;> simp [handle_game_message_src, h]
  · intro hasKey saveOk st member n
    cases saveOk with
    | false => rfl
    | true =>
      cases hasKey with
      | false => rfl
      | true => by_cases h : n ≥ st.latest <;> simp [handle_game_message_src, h]

/-- Claim C2 (confirmed): the stored latest game number never decreases:
each ingestion step (any save outcome, any user, any index) maps it to a
value that is at least the value just read, so along any sequence of
ingested indices the stored values form a non-decreasing chain. -/
theorem C2_latest_monotone :
    (∀ (st : EngineState) (ev : Bool × Nat × Nat), st.latest ≤ (ingest_step st ev).latest) ∧
    (∀ (st : EngineState) (evs : List (Bool × Nat × Nat)),
      List.Chain' (· ≤ ·) ((List.scanl ingest_step st evs).map EngineState.latest)) := by
  have hstep : ∀ (st : EngineState) (ev : Bool × Nat × Nat),
      st.latest ≤ (ingest_step st ev).latest := by
    intro st ev
    obtain ⟨ok, member, n⟩ := ev
    cases ok with
    | false => simp [ingest_step, handle_game_message_model]
    | true =>
      by_cases h : n ≥ st.latest
      · simp [ingest_step, handle_game_message_model, h]
      · simp [ingest_step, handle_game_message_model, h]
  refine ⟨hstep, ?_⟩
  intro st evs
  induction evs generalizing st with
  | nil => simp
  | cons e t ih =>
    have hsc : List.scanl ingest_step st (e :: t) =
        st :: List.scanl ingest_step (ingest_step st e) t := rfl
    rw [hsc, List.map_cons]
    refine List.Chain'.cons' (ih _) ?_
    intro y hy
    have hhead : ((List.scanl ingest_step (ingest_step st e) t).map EngineState.latest).head? =
        some ((ingest_step st e).latest) := by cases t <;> rfl
    rw [hhead] at hy
    simp only [Option.mem_def, Option.some.injEq] at hy
    subst hy
    exact hstep st e

/-- Claim C9 (confirmed): when persisting the result fails, the handler
stops with the persistence error and the whole engine state, in particular
the stored latest game number, is unchanged; conversely the stored number
only ever changes in a run that also appended the corresponding result row. -/
theorem C9_failed_save_no_transition :
    (∀ (st : EngineState) (member n : Nat),
      handle_game_message_model false st member n = (some PyErr.persistenceError, st)) ∧
    (∀ (ok : Bool) (st : EngineState) (member n : Nat),
      (handle_game_message_model ok st member n).2.latest ≠ st.latest →
      (member, n) ∈ (handle_game_message_model ok st member n).2.records) := by
  constructor
  · intro st member n; rfl
  · intro ok st member n h
    cases ok with
    | false => simp [handle_game_message_model] at h
    | true =>
      by_cases hc : n ≥ st.latest
      · simp [handle_game_message_model, hc]
      · simp [handle_game_message_model, hc] at h

/-- Witness for C9: a successful save of index 5 against stored latest 0
changes the stored number, and the corresponding record is present. -/
theorem C9_failed_save_no_transition_witness :
    (9, 5) ∈ (handle_game_message_model true ⟨0, ⟨true, []⟩, []⟩ 9 5).2.records :=
  C9_failed_save_no_transition.2 true ⟨0, ⟨true, []⟩, []⟩ 9 5 (by decide)

/-! ## Claim theorems C10, C5, C6, C7. -/

theorem pyOrZero_some (v : Nat) : pyOrZero (some v) = v := by
  by_cases h : v = 0 <;> simp [pyOrZero, h]

/-- Claim C10 (confirmed): the Wordle pattern accepts the attempts digit 0;
the message `Wordle 100 0/6` parses to attempts 0 with solved true
(`solved` is `attempts <= 6`), and with attempts 0 the persisted total is
exactly skill minus luck (tier default 0). -/
theorem C10_wordle_zero_attempts :
    parse_wordle_score msgWordleZero = .ok (some ⟨100, 0, true, false, none, none, []⟩) ∧
    is_wordle_message msgWordleZero = true ∧
    (∀ (u gn s l : Nat) (hm : Bool),
      (save_wordle_score u gn 0 (some s) (some l) hm).total_score = (s : Int) - (l : Int)) := by
  refine ⟨rfl, rfl, ?_⟩
  intro u gn s l hm
  simp only [save_wordle_score, pyOrZero_some]
  have h0 : attempt_score 0 = 0 := rfl
  rw [h0]
  ring

/-- Claim C5, counterexample: a Wordle failure result that carries skill 40
and luck 10 persists total score 30, not 0 (the tier contribution is 0 but
skill and luck still enter the total). -/
theorem C5_counterexample :
    parse_wordle_score msgWordleX = .ok (some ⟨100, 7, false, false, some 40, some 10, []⟩) ∧
    (save_wordle_score 1 100 7 (some 40) (some 10) false).total_score = 30 ∧
    (30 : Int) ≠ 0 := by
  exact ⟨rfl, rfl, by decide⟩

/-- Claim C5 as amended: a matched failure marker maps to a sentinel
strictly above the maximum (7 for Wordle, `max_attempts + 1` for Bandle),
never to zero, and marks the result unsolved; the Bandle total score is then
0, and for Wordle the attempts-tier contribution is 0, so the persisted
total equals skill minus luck (0 when both are absent). -/
theorem C5_failure_sentinel :
    (∀ (msg : String) (g : WordleGroups), wordleSearch msg.data = some g →
      g.attempt = 'X' →
      ∃ r : WordleResult, parse_wordle_score msg = .ok (some r) ∧
        r.attempts = 7 ∧ r.solved = false) ∧
    (∀ (u gn : Nat) (s l : Option Nat) (hm : Bool),
      (save_wordle_score u gn 7 s l hm).total_score =
        (pyOrZero s : Int) - (pyOrZero l : Int)) ∧
    (∀ (msg : String) (bg : BandleGroups), bandleSearch msg.data = some bg →
      bg.attempt = 'X' →
      ∃ r : BandleResult, parse_bandle_score msg = .ok (some r) ∧
        r.attempts = (bg.maxd.toNat - 48) + 1 ∧ r.solved = false ∧ r.total_score = 0) ∧
    parse_bandle_score msgBandleX = .ok (some ⟨123, 7, false, 0, 0, 0⟩) := by
  refine ⟨?_, ?_, ?_, rfl⟩
  · intro msg g hs hX
    simp only [parse_wordle_score, hs, hX, ite_true]
    exact ⟨_, rfl, rfl, rfl⟩
  · intro u gn s l hm
    simp only [save_wordle_score]
    have h7 : attempt_score 7 = 0 := rfl
    rw [h7]
    ring
  · intro msg bg hs hX
    simp only [parse_bandle_score, hs, hX]
    exact ⟨_, rfl, rfl, rfl, rfl⟩

/-- Witness for C5: the plain Wordle failure message matches with group
attempt X and parses to attempts 7, unsolved. -/
theorem C5_failure_sentinel_witness :
    ∃ r : WordleResult, parse_wordle_score msgWordleXPlain = .ok (some r) ∧
      r.attempts = 7 ∧ r.solved = false :=
  C5_failure_sentinel.1 msgWordleXPlain ⟨['1', '0', '0'], 'X', false⟩ rfl rfl

/-- Claim C6 (code bug): the Connections parser is not total.  On the
one-line message `Connections` (anchor present, structural pattern absent,
fewer than two lines) it raises `IndexError` at `lines[1]` instead of
signalling no-match, contradicting both the claim and its own docstring
(which promises None for every invalid Connections result).  On text lacking the
anchor it does return no-match, and the Wordle matcher returns false
without its structural pattern. -/
theorem C6_connections_parser_raises :
    parse_connections_result msgConnOneLine = .error .indexError ∧
    parse_connections_result msgHello = .ok none ∧
    is_wordle_message msgHello = false := by
  exact ⟨rfl, rfl, rfl⟩

/-- Claim C7, counterexample: appending the commentary line
`Great puzzle!` to a finished Connections result adds a mistake guess and
changes the total score from 17 to 11; and the Wordle grid extraction
collects every symbol-only line, not the first contiguous run: with a
commentary line between two grid lines both lines are extracted. -/
theorem C7_counterexample :
    parse_connections_result msgConnBase =
      .ok (some ⟨1, ['🟪', '🟦', '🟩', '🟨'], ⟨17, 4, true, false, true, 4, 0⟩⟩) ∧
    parse_connections_result msgConnComment =
      .ok (some ⟨1, ['🟪', '🟦', '🟩', '🟨', 'X'], ⟨11, 5, true, false, true, 4, 1⟩⟩) ∧
    parse_wordle_score msgWordleSplitGrid =
      .ok (some ⟨1, 2, true, false, none, none, [wordleGridA.data, wordleGridB.data]⟩) ∧
    firstGridRunSpec (pySplit '\n' msgWordleSplitGrid.data) = [wordleGridA.data] ∧
    [wordleGridA.data, wordleGridB.data] ≠ [wordleGridA.data] := by
  refine ⟨rfl, rfl, rfl, rfl, by simp⟩

/-- Claim C7 as amended: the Wordle grid is the set of all message lines
composed solely of the grid alphabet, wherever they occur, so appending a
non-grid line never changes it.  For Connections, lines after the header
contribute guesses as follows: a whitespace-only line adds nothing; a line
whose stripped length is anything other than 4 (trailing commentary
included) is appended as the mistake marker X; a 4-character line is
appended as X unless its characters are all equal, in which case that
character itself is appended, and when it is neither a category symbol nor
X it changes only the guess count, never the score, the correct-guess or
mistake counts, or the finished flag. -/
theorem C7_grid_extraction :
    (∀ (ls : List (List Char)) (c : List Char), is_wordle_grid_line c = false →
      (ls ++ [c]).filter is_wordle_grid_line = ls.filter is_wordle_grid_line) ∧
    (∀ (ls : List (List Char)) (c : List Char), pyStrip c = [] →
      connGuesses (ls ++ [c]) = connGuesses ls) ∧
    (∀ (ls : List (List Char)) (c : List Char), pyStrip c ≠ [] →
      (pyStrip c).length ≠ 4 →
      connGuesses (ls ++ [c]) = connGuesses ls ++ ['X']) ∧
    (∀ (ls : List (List Char)) (c : List Char) (e : Char) (rest : List Char),
      pyStrip c = e :: rest → rest.length = 3 →
      rest.all (fun x => x = e) = false →
      connGuesses (ls ++ [c]) = connGuesses ls ++ ['X']) ∧
    (∀ (ls : List (List Char)) (c : List Char) (e : Char),
      pyStrip c = [e, e, e, e] →
      connGuesses (ls ++ [c]) = connGuesses ls ++ [e]) ∧
    (∀ (gs : List Char) (d : Char), base_points_find d = none → d ≠ 'X' →
      (calculate_connections_score (gs ++ [d])).total_score =
        (calculate_connections_score gs).total_score ∧
      (calculate_connections_score (gs ++ [d])).correct_guesses =
        (calculate_connections_score gs).correct_guesses ∧
      (calculate_connections_score (gs ++ [d])).mistake_count =
        (calculate_connections_score gs).mistake_count ∧
      (calculate_connections_score (gs ++ [d])).finished_game =
        (calculate_connections_score gs).finished_game ∧
      (calculate_connections_score (gs ++ [d])).num_guesses =
        (calculate_connections_score gs).num_guesses + 1) ∧
    conn_line_guess (("nice").data) = some 'X' ∧
    conn_line_guess (("aaaa").data) = some 'a' := by
  refine ⟨?_, ?_, ?_, ?_, ?_, ?_, rfl, rfl⟩
  · intro ls c h
    simp [List.filter_append, h]
  · intro ls c h
    have hg : conn_line_guess c = none := by
      simp [conn_line_guess, h]
    simp [connGuesses, List.filterMap_append, hg]
  · intro ls c h1 h2
    have hg : conn_line_guess c = some 'X' := by
      have hlen : (pyStrip c).length > 0 := List.length_pos.mpr h1
      simp only [conn_line_guess]
      rw [if_neg h2, if_pos hlen]
    simp [connGuesses, List.filterMap_append, hg]
  · intro ls c e rest hs h3 hall
    have hg : conn_line_guess c = some 'X' := by
      have hlen : (pyStrip c).length = 4 := by rw [hs]; simp [h3]
      simp only [conn_line_guess, if_pos hlen, hs, hall]
      simp
    simp [connGuesses, List.filterMap_append, hg]
  · intro ls c e hs
    have hg : conn_line_guess c = some e := by
      have hlen : (pyStrip c).length = 4 := by rw [hs]; rfl
      simp only [conn_line_guess, if_pos hlen, hs]
      simp
    simp [connGuesses, List.filterMap_append, hg]
  · intro gs d h1 h2
    have hx : (base_points_find d).isSome = false := by rw [h1]; rfl
    have hl1 : connLoop1 (gs ++ [d]) = connLoop1 gs := by
      rcases hc : connLoop1 gs with ⟨f, c, m⟩
      simp only [connLoop1, List.foldl_append, List.foldl_cons, List.foldl_nil]
      rw [connLoop1] at hc
      rw [hc]
      simp [conn_loop1_step, hx, h2]
    have hp : ∀ t0 : Int,
        (gs ++ [d]).foldl conn_points_step t0 = gs.foldl conn_points_step t0 := by
      intro t0
      simp [List.foldl_append, conn_points_step, h1]
    refine ⟨?_, ?_, ?_, ?_, ?_⟩ <;>
      simp [calculate_connections_score, hl1, hp]

/-- Witness for C7: appending the commentary line to a grid line leaves the
Wordle grid filter unchanged; the commentary line, a 4-character non-uniform
line and a 4-character uniform line are appended as the code dictates, and
the stray uniform guess does not change the total score. -/
theorem C7_grid_extraction_witness :
    ([wordleGridA.data] ++ [connCommentLine.data]).filter is_wordle_grid_line =
      [wordleGridA.data].filter is_wordle_grid_line ∧
    connGuesses ([("🟪🟪🟪🟪").data] ++ [connCommentLine.data]) =
      connGuesses [("🟪🟪🟪🟪").data] ++ ['X'] ∧
    connGuesses ([("🟪🟪🟪🟪").data] ++ [("nice").data]) =
      connGuesses [("🟪🟪🟪🟪").data] ++ ['X'] ∧
    connGuesses ([("🟪🟪🟪🟪").data] ++ [("aaaa").data]) =
      connGuesses [("🟪🟪🟪🟪").data] ++ ['a'] ∧
    (calculate_connections_score (['🟪'] ++ ['a'])).total_score =
      (calculate_connections_score ['🟪']).total_score :=
  ⟨C7_grid_extraction.1 [wordleGridA.data] connCommentLine.data (by rfl),
   C7_grid_extraction.2.2.1 [("🟪🟪🟪🟪").data] connCommentLine.data (by decide) (by decide),
   C7_grid_extraction.2.2.2.1 [("🟪🟪🟪🟪").data] (("nice").data) 'n' (("ice").data)
     (by rfl) (by rfl) (by rfl),
   C7_grid_extraction.2.2.2.2.1 [("🟪🟪🟪🟪").data] (("aaaa").data) 'a' (by rfl),
   (C7_grid_extraction.2.2.2.2.2.1 ['🟪'] 'a' (by rfl) (by decide)).1⟩

/-! ## Shape lemmas for the Gisnep time scanner; claim C8. -/

theorem searchWith_some {α : Type} (f : List Char → Option α) :
    ∀ (cs : List Char) (r : α), searchWith f cs = some r → ∃ t, f t = some r := by
  intro cs
  induction cs with
  | nil => intro r h; exact ⟨[], h⟩
  | cons c t ih =>
    intro r h
    simp only [searchWith] at h
    cases hf : f (c :: t) with
    | some v => rw [hf] at h; exact ⟨c :: t, hf.trans h⟩
    | none => rw [hf] at h; exact ih r h

theorem forall_mem_pair {p : Char → Prop} {a b : Char} (ha : p a) (hb : p b) :
    ∀ c ∈ [a, b], p c := by
  intro c hc
  rcases List.mem_cons.mp hc with rfl | hc2
  · exact ha
  · rcases List.mem_cons.mp hc2 with rfl | hc3
    · exact hb
    · exact absurd hc3 (List.not_mem_nil c)

theorem forall_mem_single {p : Char → Prop} {a : Char} (ha : p a) : ∀ c ∈ [a], p c := by
  intro c hc
  rcases List.mem_cons.mp hc with rfl | hc2
  · exact ha
  · exact absurd hc2 (List.not_mem_nil c)

theorem parseTimeGroup_some : ∀ (t md sd : List Char),
    parseTimeGroup t = some (md, sd) →
    (∀ c ∈ md, c.isDigit = true) ∧ (∀ c ∈ sd, c.isDigit = true) := by
  intro t md sd h
  unfold parseTimeGroup at h
  split at h
  · split_ifs at h with h1 h2
    · injection h with hp
      rw [Prod.ext_iff] at hp
      obtain ⟨hmd, hsd⟩ := hp
      subst hmd; subst hsd
      simp only [Bool.and_eq_true] at h1
      obtain ⟨⟨⟨⟨ha, hb⟩, _⟩, hd⟩, he⟩ := h1
      exact ⟨forall_mem_pair ha hb, forall_mem_pair hd he⟩
    · injection h with hp
      rw [Prod.ext_iff] at hp
      obtain ⟨hmd, hsd⟩ := hp
      subst hmd; subst hsd
      simp only [Bool.and_eq_true] at h2
      obtain ⟨⟨⟨ha, _⟩, hc'⟩, hd⟩ := h2
      exact ⟨forall_mem_single ha, forall_mem_pair hc' hd⟩
  · split_ifs at h with h1
    · injection h with hp
      rw [Prod.ext_iff] at hp
      obtain ⟨hmd, hsd⟩ := hp
      subst hmd; subst hsd
      simp only [Bool.and_eq_true] at h1
      obtain ⟨⟨⟨ha, _⟩, hc'⟩, hd⟩ := h1
      exact ⟨forall_mem_single ha, forall_mem_pair hc' hd⟩
  · cases h

theorem findInTimeFrom_some : ∀ (cs md sd : List Char),
    findInTimeFrom cs = some (md, sd) → ∃ t, parseTimeGroup t = some (md, sd) := by
  intro cs
  induction cs with
  | nil => intro md sd h; cases h
  | cons c t ih =>
    intro md sd h
    simp only [findInTimeFrom] at h
    cases hr : findInTimeFrom t with
    | some v =>
      rw [hr] at h
      have hv : v = (md, sd) := by injection h
      exact ih md sd (hv ▸ hr)
    | none =>
      rw [hr] at h
      cases hm : matchCI ("in ".data) (c :: t) with
      | some after => rw [hm] at h; exact ⟨after, h⟩
      | none => rw [hm] at h; cases h

theorem tryGisnepAt_some : ∀ (t md sd : List Char),
    tryGisnepAt t = some (md, sd) → ∃ reg, findInTimeFrom reg = some (md, sd) := by
  intro t md sd h
  simp only [tryGisnepAt] at h
  cases hm : matchCI ("#gisnep".data) t with
  | some rest => rw [hm] at h; exact ⟨_, h⟩
  | none => rw [hm] at h; cases h

theorem digit_ne_colon (c : Char) (h : c.isDigit = true) : c ≠ ':' := by
  intro he; subst he; exact absurd h (by decide)

theorem pySplit_no_sep (sep : Char) : ∀ (l : List Char),
    (∀ c ∈ l, c ≠ sep) → pySplit sep l = [l] := by
  intro l
  induction l with
  | nil => intro _; rfl
  | cons c t ih =>
    intro h
    have hc : c ≠ sep := h c (by simp)
    simp only [pySplit, if_neg hc]
    rw [ih (fun d hd => h d (by simp [hd]))]

theorem pySplit_append_sep (sep : Char) : ∀ (a b : List Char),
    (∀ c ∈ a, c ≠ sep) → pySplit sep (a ++ sep :: b) = a :: pySplit sep b := by
  intro a
  induction a with
  | nil => intro b _; simp [pySplit]
  | cons c t ih =>
    intro b h
    have hc : c ≠ sep := h c (by simp)
    simp only [List.cons_append, pySplit, if_neg hc, List.append_eq]
    rw [ih b (fun d hd => h d (by simp [hd]))]

/-- Claim C8, counterexample: a Gisnep message whose time token is bare
seconds is not matched at all (the pattern requires a colon); the same
message with a zero-minutes MM:SS token is matched and yields 45 seconds. -/
theorem C8_counterexample :
    parse_gisnep_score msgGisnepBare = none ∧
    parse_gisnep_score msgGisnepMMSS = some ⟨12, 45⟩ :=
  ⟨rfl, rfl⟩

/-- Claim C8 as amended: every successfully parsed Gisnep result takes its
completion time from an MM:SS token (one or two minute digits, a colon, two
second digits), as `minutes * 60 + seconds`; the bare-seconds branch of the
conversion is unreachable. -/
theorem C8_time_parse :
    ∀ (msg : String) (r : GisnepResult), parse_gisnep_score msg = some r →
      ∃ md sd : List Char, gisnepTimeSearch msg.data = some (md, sd) ∧
        (∀ c ∈ md, c.isDigit = true) ∧ (∀ c ∈ sd, c.isDigit = true) ∧
        r.completion_time = natOfDigits md * 60 + natOfDigits sd := by
  intro msg r h
  simp only [parse_gisnep_score] at h
  cases hts : gisnepTimeSearch msg.data with
  | none =>
    rw [hts] at h
    cases htn : searchWith tryGisnepNoAt msg.data with
    | none => rw [htn] at h; simp at h
    | some gd => rw [htn] at h; simp at h
  | some p =>
    obtain ⟨md, sd⟩ := p
    rw [hts] at h
    cases htn : searchWith tryGisnepNoAt msg.data with
    | none => rw [htn] at h; simp at h
    | some gd =>
      rw [htn] at h
      dsimp only at h
      obtain ⟨t1, ht1⟩ := searchWith_some tryGisnepAt msg.data (md, sd) hts
      obtain ⟨reg, hreg⟩ := tryGisnepAt_some t1 md sd ht1
      obtain ⟨after, hafter⟩ := findInTimeFrom_some reg md sd hreg
      obtain ⟨hmd, hsd⟩ := parseTimeGroup_some after md sd hafter
      refine ⟨md, sd, rfl, hmd, hsd, ?_⟩
      have hsplit : pySplit ':' (md ++ ':' :: sd) = [md, sd] := by
        rw [pySplit_append_sep ':' md sd (fun c hc => digit_ne_colon c (hmd c hc)),
          pySplit_no_sep ':' sd (fun c hc => digit_ne_colon c (hsd c hc))]
      rw [hsplit] at h
      simp only [List.map_cons, List.map_nil] at h
      injection h with h2
      rw [← h2]

/-- Witness for C8: the MM:SS message with time token 1:23 parses to 83
seconds. -/
theorem C8_time_parse_witness :
    ∃ md sd : List Char, gisnepTimeSearch msgGisnepW.data = some (md, sd) ∧
      (∀ c ∈ md, c.isDigit = true) ∧ (∀ c ∈ sd, c.isDigit = true) ∧
      (⟨3, 83⟩ : GisnepResult).completion_time = natOfDigits md * 60 + natOfDigits sd :=
  C8_time_parse msgGisnepW ⟨3, 83⟩ rfl

end Gamesbot


